import Mathlib

/-!
Shallow embedding of the CIFlowBot webhook handler (src/ciflow-bot.ts).

The bot reacts to pull-request and issue-comment webhook events, decides
whether the event may mutate CI-dispatch state (`valid`), gates the feature
to a fixed set of users (`rollout`), runs a pipeline of label strategies
(`dispatch_strategy_func`), reconciles the pull request's labels
(`setLabels`) and emits an assign/unassign signal (`signal_github`).

Side effects (platform API calls and log records) are modelled as an
explicit trace of `Action` values, in the order the code awaits them.
The repository/issue routing fields of each call (owner, repo, number) are
constant per event and elided from the trace.  String routines that the
TypeScript source uses (startsWith, split, the comment regex) are embedded
as character-list functions so that concrete instances evaluate by `decide`.
-/

namespace CIFlow

/-- One observable side effect of the handler: a structured log record or a
platform API call, in program order. -/
inductive Action where
  | logInfo (msg : String)
  | logError (msg : String)
  | addLabels (labels : List String)
  | removeLabel (label : String)
  | addAssignees (assignees : List String)
  | removeAssignees (assignees : List String)
deriving DecidableEq, Repr

/-- Platform API calls, as opposed to log records. -/
def isPlatformCall : Action → Bool
  | Action.logInfo _ => false
  | Action.logError _ => false
  | _ => true

/-- Embedding of JavaScript String.prototype.startsWith: the second string is
a character-prefix of the first. -/
def strStartsWith (s p : String) : Bool :=
  p.data.isPrefixOf s.data

/-- Embedding of JavaScript String.prototype.split with a one-character
separator: `split [] = [[]]`, and each separator character opens a new chunk
(so a trailing or doubled separator yields empty chunks, and the empty
string yields the one-element list containing the empty chunk). -/
def splitOnSpace : List Char → List (List Char)
  | [] => [[]]
  | c :: rest =>
    match splitOnSpace rest with
    | [] => [[]]
    | h :: t => if c = ' ' then [] :: h :: t else (c :: h) :: t

/-- The ASCII characters matched by the regex class backslash-s. -/
def isJsSpace (c : Char) : Bool :=
  c = ' ' || c = '\t' || c = '\n' || c = '\r' || c = '\x0b' || c = '\x0c'

/-- The characters matched by the regex class backslash-w. -/
def isWordChar (c : Char) : Bool :=
  c.isAlpha || c.isDigit || c = '_'

-- Static readonly configuration of the bot.

def allowed_commands : List String := ["ciflow"]

def bot_app_name : String := "pytorchbot"

def bot_assignee : String := "pytorchbot"

def event_issue_comment : String := "issue_comment"

def event_pull_request : String := "pull_request"

def pr_label_prefix : String := "ciflow/"

def rollout_users : List String := ["zhouzhuojie"]

def strategy_add_default_labels : String := "strategy_add_default_labels"

/-- The mention the comment regex looks for: an at-sign followed by the bot
application name. -/
def mention : List Char := '@' :: bot_app_name.data

/-- Matching of the tail of the comment regex, the part after the mention:
one or more whitespace characters, one or more word characters (first
capture group), at most one optional whitespace character, then the rest of
the string (second capture group), which may not contain a newline since
dot does not match newlines and the dollar anchor only matches at the end
of the input.  Returns the two capture groups.  Greediness resolves as
follows: the whitespace run and the word run are consumed maximally (their
character classes are disjoint, so backtracking into them never helps), and
the optional whitespace is taken when present unless only skipping it lets
the final group avoid a newline, which is impossible, so a newline after
the optional whitespace point fails the match. -/
def tailMatch (t : List Char) : Option (List Char × List Char) :=
  let sp := t.takeWhile isJsSpace
  let t1 := t.dropWhile isJsSpace
  let g1 := t1.takeWhile isWordChar
  let r := t1.dropWhile isWordChar
  if sp.isEmpty then none
  else if g1.isEmpty then none
  else
    match r with
    | [] => some (g1, [])
    | c :: r2 =>
      if isJsSpace c then
        if r2.contains '\n' then none else some (g1, r2)
      else
        if r.contains '\n' then none else some (g1, r)

/-- Matching of the whole comment regex against a character list: a greedy
leading dot-star (which cannot cross a newline) followed by the mention and
`tailMatch`.  Greediness of the leading dot-star means the rightmost
position at which the rest of the pattern matches wins, so later positions
are tried first. -/
def ciflowMatchList : List Char → Option (List Char × List Char)
  | [] => none
  | c :: rest =>
    match (if c = '\n' then none else ciflowMatchList rest) with
    | some res => some res
    | none =>
      if mention.isPrefixOf (c :: rest) then
        tailMatch ((c :: rest).drop mention.length)
      else none

/-- Whether the mention occurs anywhere in the character list. -/
def hasMention : List Char → Bool
  | [] => false
  | c :: rest => mention.isPrefixOf (c :: rest) || hasMention rest

/-- A comment attached to an issue-comment delivery: author login and raw
body text. -/
structure Comment where
  author : String
  body : String
deriving DecidableEq, Repr

/-- One webhook delivery, with the fields the bot reads: event kind and
action, repository identity, pull-request (or issue) number, author and
label names, and, when present, the comment. -/
structure WebhookEvent where
  kind : String
  action : String
  owner : String
  repo : String
  pr_number : Nat
  pr_author : String
  pr_label_names : List String
  comment : Option Comment
deriving DecidableEq, Repr

/-- The stateful instance variables of the bot.  Fields that the source may
leave undefined when the payload lacks a comment are modelled as options. -/
structure CIFlowBot where
  command : String
  command_args : List String
  comment_author : Option String
  comment_body : Option String
  dispatch_labels : List String
  dispatch_strategies : List String
  event : String
  owner : String
  pr_author : String
  pr_labels : List String
  pr_number : Nat
  repo : String
deriving DecidableEq, Repr

/-- The initial field values of a freshly constructed bot. -/
def CIFlowBot.init : CIFlowBot :=
  { command := ""
    command_args := []
    comment_author := some ""
    comment_body := some ""
    dispatch_labels := []
    dispatch_strategies := [ strategy_add_default_labels]
    event := ""
    owner := ""
    pr_author := ""
    pr_labels := []
    pr_number := 0
    repo := "" }

namespace CIFlowBot

/-- Authorization check `valid`.  Returns the boolean together with the log
records it emits.  Unknown event kinds are rejected with an error log; for
comment events an empty comment author is rejected with an error log, a
comment author different from the pull-request author is rejected silently,
and a command outside the allowed set is rejected silently.  Pull-request
events are always valid. -/
def valid (b : CIFlowBot) : Bool × List Action :=
  if b.event ≠ event_pull_request ∧ b.event ≠ event_issue_comment then
    (false, [Action.logError "Unknown webhook event"])
  else if b.event = event_issue_comment then
    if b.comment_author = some "" then
      (false, [Action.logError "Empty comment author"])
    else if b.comment_author ≠ some b.pr_author then
      (false, [])
    else if ¬ allowed_commands.contains b.command then
      (false, [])
    else (true, [])
  else (true, [])

/-- Slow-rollout gate `rollout` on the pull-request author. -/
def rollout (b : CIFlowBot) : Bool :=
  rollout_users.contains b.pr_author

/-- One step of the dispatch-strategy pipeline.  The only known strategy
seeds the accumulator from the pull request's namespaced labels when it is
empty and then prepends the default label; an unknown strategy name logs an
error and leaves the accumulator unchanged. -/
def dispatch_strategy_func (b : CIFlowBot) (strategyName : String) :
    CIFlowBot × List Action :=
  if strategyName = strategy_add_default_labels then
    let b1 :=
      if b.dispatch_labels.length = 0 then
        { b with dispatch_labels := b.pr_labels }
      else b
    ({ b1 with dispatch_labels := "ciflow/default" :: b1.dispatch_labels }, [])
  else
    (b, [Action.logError "Unknown dispatch strategy"])

/-- The pipeline: apply `dispatch_strategy_func` to each strategy name in
order, threading the bot state and collecting the log records. -/
def runStrategies : CIFlowBot → List String → CIFlowBot × List Action
  | b, [] => (b, [])
  | b, s :: rest =>
    let p1 := dispatch_strategy_func b s
    let p2 := runStrategies p1.1 rest
    (p2.1, p1.2 ++ p2.2)

/-- The dispatch labels restricted to the label namespace, as computed at
the start of `setLabels`. -/
def filteredLabels (b : CIFlowBot) : List String :=
  b.dispatch_labels.filter (fun label => strStartsWith label pr_label_prefix)

/-- The current pull-request labels that are absent from the prefix-filtered
target list. -/
def labelsToDelete (b : CIFlowBot) : List String :=
  b.pr_labels.filter (fun l => ! (filteredLabels b).contains l)

/-- The prefix-filtered target labels that are absent from the current
pull-request labels. -/
def labelsToAdd (b : CIFlowBot) : List String :=
  (filteredLabels b).filter (fun l => ! b.pr_labels.contains l)

/-- Label reconciliation `setLabels`: one remove-label call per entry of `labelsToDelete`, then
one batched add-labels call with `labelsToAdd`; afterwards the in-memory
dispatch labels are replaced by the prefix-filtered target list. -/
def setLabels (b : CIFlowBot) : CIFlowBot × List Action :=
  ({ b with dispatch_labels := filteredLabels b },
    (labelsToDelete b).map Action.removeLabel ++
      [Action.addLabels (labelsToAdd b)])

/-- Signal emission `signal_github`: add the bot assignee, then remove it,
in that order. -/
def signal_github : List Action :=
  [Action.addAssignees [ bot_assignee], Action.removeAssignees [ bot_assignee]]

/-- Dispatch `dispatch`: run the strategy pipeline over the configured strategies,
reconcile the labels, emit the assign/unassign signal, then log success. -/
def dispatch (b : CIFlowBot) : CIFlowBot × List Action :=
  ((setLabels (runStrategies b b.dispatch_strategies).1).1,
    (runStrategies b b.dispatch_strategies).2 ++
      (setLabels (runStrategies b b.dispatch_strategies).1).2 ++
      signal_github ++ [Action.logInfo "ciflow dispatch success!"])

/-- Comment parsing `parseComment`: match the comment body, when present, against the
comment regex and store the two capture groups: the command name, and the
argument list obtained by splitting the rest on single spaces. -/
def parseComment (b : CIFlowBot) : CIFlowBot :=
  match b.comment_body with
  | none => b
  | some body =>
    match ciflowMatchList body.data with
    | none => b
    | some g =>
      { b with
        command := String.mk g.1
        command_args := (splitOnSpace g.2).map String.mk }

/-- Context extraction `setContext`: populate the bot state from the webhook payload (labels
are filtered to the namespace), then parse the comment. -/
def setContext (b : CIFlowBot) (e : WebhookEvent) : CIFlowBot :=
  parseComment
    { b with
      event := e.kind
      pr_number := e.pr_number
      pr_author := e.pr_author
      pr_labels := e.pr_label_names.filter
        (fun name => strStartsWith name pr_label_prefix)
      comment_author := e.comment.map Comment.author
      comment_body := e.comment.map Comment.body
      owner := e.owner
      repo := e.repo }

/-- The log record emitted unconditionally at the start of the handler. -/
def startedLog : Action := Action.logInfo "ciflow dispatch started!"

/-- Top-level `handler`: build the state from the payload, log the start record, stop
after `valid` fails or `rollout` fails, otherwise dispatch.  Returns the
final state and the emitted trace. -/
def handler (e : WebhookEvent) : CIFlowBot × List Action :=
  if (valid (setContext CIFlowBot.init e)).1 = false then
    (setContext CIFlowBot.init e,
      startedLog :: (valid (setContext CIFlowBot.init e)).2)
  else if rollout (setContext CIFlowBot.init e) = false then
    (setContext CIFlowBot.init e,
      startedLog :: (valid (setContext CIFlowBot.init e)).2)
  else
    ((dispatch (setContext CIFlowBot.init e)).1,
      startedLog ::
        ((valid (setContext CIFlowBot.init e)).2 ++
          (dispatch (setContext CIFlowBot.init e)).2))

end CIFlowBot

/-- The state of a fresh bot handling a pull request that carries the given
namespaced labels, with only the label-relevant fields populated. -/
def freshBot (labels : List String) : CIFlowBot :=
  { CIFlowBot.init with pr_labels := labels }

/-- The state after the strategy pipeline of `dispatch` has run. -/
def strategyPhase (b : CIFlowBot) : CIFlowBot :=
  (CIFlowBot.runStrategies b b.dispatch_strategies).1

/-- The dispatch-label output of one full strategy-plus-reconciliation run
on a fresh bot whose pull request carries the given namespaced labels. -/
def pipelineOutput (labels : List String) : List String :=
  (CIFlowBot.setLabels (strategyPhase (freshBot labels))).1.dispatch_labels

/-- A pull-request opened delivery by a rollout user with no namespaced
label on the pull request. -/
def eOpened : WebhookEvent :=
  { kind := "pull_request"
    action := "opened"
    owner := "pytorch"
    repo := "pytorch"
    pr_number := 5
    pr_author := "zhouzhuojie"
    pr_label_names := ["bug"]
    comment := none }

/-- An issue-comment delivery whose comment author login is the empty
string. -/
def eEmptyAuthor : WebhookEvent :=
  { kind := "issue_comment"
    action := "created"
    owner := "pytorch"
    repo := "pytorch"
    pr_number := 1
    pr_author := "alice"
    pr_label_names := []
    comment := some { author := "", body := "@pytorchbot ciflow" } }

/-- A pull-request delivery by an author outside the rollout set. -/
def eGatedOut : WebhookEvent :=
  { kind := "pull_request"
    action := "synchronize"
    owner := "pytorch"
    repo := "pytorch"
    pr_number := 2
    pr_author := "bob"
    pr_label_names := ["ciflow/default"]
    comment := none }

/-- An issue-comment delivery whose body never mentions the bot. -/
def eNoMention : WebhookEvent :=
  { kind := "issue_comment"
    action := "created"
    owner := "pytorch"
    repo := "pytorch"
    pr_number := 3
    pr_author := "alice"
    pr_label_names := []
    comment := some { author := "alice", body := "no mention here" } }

/-- A bot state about to reconcile labels: one stale namespaced label on the
pull request, one namespaced and one foreign label in the target list. -/
def bReconcile : CIFlowBot :=
  { CIFlowBot.init with
    pr_labels := ["ciflow/old"]
    dispatch_labels := ["ciflow/default", "bug"] }

-- Helper lemmas -----------------------------------------------------------

/-- The comment parser never writes the event field. -/
theorem parseComment_event (b : CIFlowBot) :
    (CIFlowBot.parseComment b).event = b.event := by
  unfold CIFlowBot.parseComment
  split
  · rfl
  · split <;> rfl

/-- The comment parser never writes the pull-request author field. -/
theorem parseComment_pr_author (b : CIFlowBot) :
    (CIFlowBot.parseComment b).pr_author = b.pr_author := by
  unfold CIFlowBot.parseComment
  split
  · rfl
  · split <;> rfl

/-- The comment parser never writes the pull-request labels field. -/
theorem parseComment_pr_labels (b : CIFlowBot) :
    (CIFlowBot.parseComment b).pr_labels = b.pr_labels := by
  unfold CIFlowBot.parseComment
  split
  · rfl
  · split <;> rfl

/-- The comment parser never writes the dispatch-labels accumulator. -/
theorem parseComment_dispatch_labels (b : CIFlowBot) :
    (CIFlowBot.parseComment b).dispatch_labels = b.dispatch_labels := by
  unfold CIFlowBot.parseComment
  split
  · rfl
  · split <;> rfl

/-- The comment parser never writes the strategy list. -/
theorem parseComment_dispatch_strategies (b : CIFlowBot) :
    (CIFlowBot.parseComment b).dispatch_strategies = b.dispatch_strategies := by
  unfold CIFlowBot.parseComment
  split
  · rfl
  · split <;> rfl

/-- The comment parser never writes the comment author field. -/
theorem parseComment_comment_author (b : CIFlowBot) :
    (CIFlowBot.parseComment b).comment_author = b.comment_author := by
  unfold CIFlowBot.parseComment
  split
  · rfl
  · split <;> rfl

/-- Context extraction stores the event kind. -/
theorem setContext_event (b : CIFlowBot) (e : WebhookEvent) :
    (CIFlowBot.setContext b e).event = e.kind := by
  unfold CIFlowBot.setContext
  rw [parseComment_event]

/-- Context extraction stores the pull-request author. -/
theorem setContext_pr_author (b : CIFlowBot) (e : WebhookEvent) :
    (CIFlowBot.setContext b e).pr_author = e.pr_author := by
  unfold CIFlowBot.setContext
  rw [parseComment_pr_author]

/-- Context extraction stores the prefix-filtered label names. -/
theorem setContext_pr_labels (b : CIFlowBot) (e : WebhookEvent) :
    (CIFlowBot.setContext b e).pr_labels =
      e.pr_label_names.filter (fun name => strStartsWith name pr_label_prefix) := by
  unfold CIFlowBot.setContext
  rw [parseComment_pr_labels]

/-- Context extraction keeps the dispatch-labels accumulator. -/
theorem setContext_dispatch_labels (b : CIFlowBot) (e : WebhookEvent) :
    (CIFlowBot.setContext b e).dispatch_labels = b.dispatch_labels := by
  unfold CIFlowBot.setContext
  rw [parseComment_dispatch_labels]

/-- Context extraction keeps the strategy list. -/
theorem setContext_dispatch_strategies (b : CIFlowBot) (e : WebhookEvent) :
    (CIFlowBot.setContext b e).dispatch_strategies = b.dispatch_strategies := by
  unfold CIFlowBot.setContext
  rw [parseComment_dispatch_strategies]

/-- Context extraction stores the comment author when a comment is present. -/
theorem setContext_comment_author (b : CIFlowBot) (e : WebhookEvent) :
    (CIFlowBot.setContext b e).comment_author = e.comment.map Comment.author := by
  unfold CIFlowBot.setContext
  rw [parseComment_comment_author]

/-- The log records emitted by `valid` are one of three concrete traces. -/
theorem valid_logs (b : CIFlowBot) :
    (CIFlowBot.valid b).2 = [] ∨
    (CIFlowBot.valid b).2 = [Action.logError "Unknown webhook event"] ∨
    (CIFlowBot.valid b).2 = [Action.logError "Empty comment author"] := by
  unfold CIFlowBot.valid
  split_ifs <;> simp

-- Claim theorems ----------------------------------------------------------

/-- C1: `valid` returns a boolean and never raises (it is a total function
into `Bool`), and it returns true exactly when the event kind is
pull_request, or the event kind is issue_comment and the comment author is
non-empty, equals the pull-request author, and the parsed command is in the
allowed-commands set; every other event kind yields false. -/
theorem C1_valid_characterization (b : CIFlowBot) :
    (CIFlowBot.valid b).1 = true ↔
      (b.event = event_pull_request ∨
        (b.event = event_issue_comment ∧
          b.comment_author ≠ some "" ∧
          b.comment_author = some b.pr_author ∧
          allowed_commands.contains b.command = true)) := by
  unfold CIFlowBot.valid
  split_ifs with h1 h2 h3 h4 h5 <;> simp_all <;> tauto

/-- Witness for C1 at a concrete comment event that passes every check. -/
theorem C1_witness :
    (CIFlowBot.valid
      { CIFlowBot.init with
        event := "issue_comment"
        comment_author := some "alice"
        pr_author := "alice"
        command := "ciflow" }).1 = true :=
  (C1_valid_characterization _).2 (by right; refine ⟨rfl, by decide, rfl, by decide⟩)

/-- C9: an unknown strategy key logs an error, does not raise (total
function), and leaves the bot state, in particular the dispatch-labels
accumulator, unchanged. -/
theorem C9_unknown_strategy (b : CIFlowBot) (s : String)
    (h : s ≠ strategy_add_default_labels) :
    (CIFlowBot.dispatch_strategy_func b s).1 = b ∧
    (CIFlowBot.dispatch_strategy_func b s).2 =
      [Action.logError "Unknown dispatch strategy"] := by
  unfold CIFlowBot.dispatch_strategy_func
  rw [if_neg h]
  exact ⟨rfl, rfl⟩

/-- Witness for C9 at the concrete strategy name "bogus". -/
theorem C9_witness :
    ("bogus" ≠ strategy_add_default_labels) ∧
    (CIFlowBot.dispatch_strategy_func CIFlowBot.init "bogus").1 = CIFlowBot.init ∧
    (CIFlowBot.dispatch_strategy_func CIFlowBot.init "bogus").2 =
      [Action.logError "Unknown dispatch strategy"] :=
  ⟨by decide, C9_unknown_strategy CIFlowBot.init "bogus" (by decide)⟩

/-- C7: the three documented comment-parsing examples: a prefixed mention
with one argument, a body with no mention (state unchanged), and a mention
with no trailing arguments, which yields the one-element argument list
containing the empty string. -/
theorem C7_parseComment_examples :
    ((CIFlowBot.parseComment
        { CIFlowBot.init with
          comment_body := some "hey @pytorchbot ciflow default" }).command
        = "ciflow" ∧
      (CIFlowBot.parseComment
        { CIFlowBot.init with
          comment_body := some "hey @pytorchbot ciflow default" }).command_args
        = ["default"]) ∧
    (CIFlowBot.parseComment
        { CIFlowBot.init with comment_body := some "no mention here" }
      = { CIFlowBot.init with comment_body := some "no mention here" }) ∧
    ((CIFlowBot.parseComment
        { CIFlowBot.init with comment_body := some "@pytorchbot ciflow" }).command
        = "ciflow" ∧
      (CIFlowBot.parseComment
        { CIFlowBot.init with comment_body := some "@pytorchbot ciflow" }).command_args
        = [""]) := by
  decide

/-- When the mention occurs nowhere in the body, the comment regex does not
match. -/
theorem ciflowMatchList_eq_none_of_no_mention (s : List Char)
    (h : hasMention s = false) : ciflowMatchList s = none := by
  induction s with
  | nil => rfl
  | cons c rest ih =>
    rw [hasMention, Bool.or_eq_false_iff] at h
    have h1 : ¬ (mention <+: (c :: rest)) := by
      rw [← List.isPrefixOf_iff_prefix]
      simp [h.1]
    simp [ciflowMatchList, ih h.2, ite_self, h1]

/-- When the body is absent or mention-free, the comment parser is the
identity. -/
theorem parseComment_eq_self (b : CIFlowBot)
    (h : ∀ body, b.comment_body = some body → hasMention body.data = false) :
    CIFlowBot.parseComment b = b := by
  cases hb : b.comment_body with
  | none => simp [CIFlowBot.parseComment, hb]
  | some body =>
    simp [CIFlowBot.parseComment, hb,
      ciflowMatchList_eq_none_of_no_mention body.data (h body hb)]

/-- C10: for every event with no comment body or with a body that never
mentions the bot, context extraction completes without raising (total
function) and leaves the command as the empty string and the argument list
empty; consequently such an issue-comment event is rejected by `valid`,
the empty string not being an allowed command. -/
theorem C10_no_mention_is_rejected (e : WebhookEvent)
    (h : e.comment = none ∨
      ∃ c, e.comment = some c ∧ hasMention c.body.data = false) :
    (CIFlowBot.setContext CIFlowBot.init e).command = "" ∧
    (CIFlowBot.setContext CIFlowBot.init e).command_args = [] ∧
    (e.kind = event_issue_comment →
      (CIFlowBot.valid (CIFlowBot.setContext CIFlowBot.init e)).1 = false) := by
  have hpc : CIFlowBot.setContext CIFlowBot.init e =
      { CIFlowBot.init with
        event := e.kind
        pr_number := e.pr_number
        pr_author := e.pr_author
        pr_labels := e.pr_label_names.filter
          (fun name => strStartsWith name pr_label_prefix)
        comment_author := e.comment.map Comment.author
        comment_body := e.comment.map Comment.body
        owner := e.owner
        repo := e.repo } := by
    unfold CIFlowBot.setContext
    apply parseComment_eq_self
    intro body hbody
    rcases h with h | ⟨c, hc, hm⟩
    · simp [h] at hbody
    · simp only [hc, Option.map_some] at hbody
      have : body = c.body := by
        simpa using hbody.symm
      rw [this]
      exact hm
  rw [hpc]
  refine ⟨rfl, rfl, ?_⟩
  intro hk
  unfold CIFlowBot.valid
  simp only [hk]
  split_ifs with h1 h2 h3 h4 <;> simp_all [allowed_commands, CIFlowBot.init]

/-- C2: label reconciliation computes `labelsToDelete` as exactly the
current labels absent from the prefix-filtered target list and
`labelsToAdd` as exactly the prefix-filtered target labels absent from the
current labels; neither list holds a label outside the namespace (given
that the current labels are namespaced, as context extraction guarantees);
and afterwards the dispatch-labels field is the prefix-filtered target
list. -/
theorem C2_setLabels_exact_diffs (b : CIFlowBot)
    (hpr : ∀ l ∈ b.pr_labels, strStartsWith l pr_label_prefix = true) :
    (∀ l, l ∈ CIFlowBot.labelsToDelete b ↔
        (l ∈ b.pr_labels ∧ l ∉ CIFlowBot.filteredLabels b)) ∧
    (∀ l, l ∈ CIFlowBot.labelsToAdd b ↔
        (l ∈ CIFlowBot.filteredLabels b ∧ l ∉ b.pr_labels)) ∧
    (∀ l ∈ CIFlowBot.labelsToDelete b, strStartsWith l pr_label_prefix = true) ∧
    (∀ l ∈ CIFlowBot.labelsToAdd b, strStartsWith l pr_label_prefix = true) ∧
    (CIFlowBot.setLabels b).1.dispatch_labels = CIFlowBot.filteredLabels b ∧
    (CIFlowBot.setLabels b).2 =
      (CIFlowBot.labelsToDelete b).map Action.removeLabel ++
        [Action.addLabels (CIFlowBot.labelsToAdd b)] := by
  have hdel : ∀ l, l ∈ CIFlowBot.labelsToDelete b ↔
      (l ∈ b.pr_labels ∧ l ∉ CIFlowBot.filteredLabels b) := by
    intro l
    simp [CIFlowBot.labelsToDelete, List.mem_filter, List.elem_iff]
  have hadd : ∀ l, l ∈ CIFlowBot.labelsToAdd b ↔
      (l ∈ CIFlowBot.filteredLabels b ∧ l ∉ b.pr_labels) := by
    intro l
    simp [CIFlowBot.labelsToAdd, List.mem_filter, List.elem_iff]
  refine ⟨hdel, hadd, ?_, ?_, rfl, rfl⟩
  · intro l hl
    exact hpr l ((hdel l).1 hl).1
  · intro l hl
    have hm := ((hadd l).1 hl).1
    simpa using (List.mem_filter.1 hm).2

/-- Witness for C2 at a concrete reconciliation state. -/
theorem C2_witness :
    ("ciflow/old" ∈ CIFlowBot.labelsToDelete bReconcile ↔
      ("ciflow/old" ∈ bReconcile.pr_labels ∧
        "ciflow/old" ∉ CIFlowBot.filteredLabels bReconcile)) ∧
    (∀ l ∈ CIFlowBot.labelsToAdd bReconcile,
      strStartsWith l pr_label_prefix = true) ∧
    (CIFlowBot.setLabels bReconcile).1.dispatch_labels =
      CIFlowBot.filteredLabels bReconcile :=
  ⟨(C2_setLabels_exact_diffs bReconcile (by decide)).1 "ciflow/old",
   (C2_setLabels_exact_diffs bReconcile (by decide)).2.2.2.1,
   (C2_setLabels_exact_diffs bReconcile (by decide)).2.2.2.2.1⟩

/-- C5 counterexample: on the issue-comment event whose comment author is
the empty string, `valid` returns false yet the handler's trace contains a
second log record (the empty-author error) after the started record, so
the handler does not emit exactly one log record as claimed. -/
theorem C5_counterexample :
    (CIFlowBot.valid (CIFlowBot.setContext CIFlowBot.init eEmptyAuthor)).1 = false ∧
    (CIFlowBot.handler eEmptyAuthor).2 =
      [Action.logInfo "ciflow dispatch started!",
        Action.logError "Empty comment author"] ∧
    (CIFlowBot.handler eEmptyAuthor).2 ≠
      [Action.logInfo "ciflow dispatch started!"] := by
  decide

/-- C5 (amended): for every event on which `valid` returns false, the
handler terminates with the started log record followed only by the error
records `valid` itself emitted (none for an author mismatch or a
disallowed command, one for an unknown event kind or an empty comment
author), and makes zero platform API calls. -/
theorem C5_rejected_stops (e : WebhookEvent)
    (h : (CIFlowBot.valid (CIFlowBot.setContext CIFlowBot.init e)).1 = false) :
    (CIFlowBot.handler e).2 =
      CIFlowBot.startedLog ::
        (CIFlowBot.valid (CIFlowBot.setContext CIFlowBot.init e)).2 ∧
    (∀ a ∈ (CIFlowBot.handler e).2, isPlatformCall a = false) := by
  have htr : (CIFlowBot.handler e).2 =
      CIFlowBot.startedLog ::
        (CIFlowBot.valid (CIFlowBot.setContext CIFlowBot.init e)).2 := by
    unfold CIFlowBot.handler
    simp [h]
  refine ⟨htr, ?_⟩
  rw [htr]
  intro a ha
  rcases List.mem_cons.1 ha with rfl | ha
  · rfl
  · rcases valid_logs (CIFlowBot.setContext CIFlowBot.init e) with hv | hv | hv <;>
      rw [hv] at ha <;> simp_all [isPlatformCall]

/-- Witness for C5 (amended) at the concrete empty-author comment event. -/
theorem C5_witness :
    (CIFlowBot.valid (CIFlowBot.setContext CIFlowBot.init eEmptyAuthor)).1 = false ∧
    (CIFlowBot.handler eEmptyAuthor).2 =
      CIFlowBot.startedLog ::
        (CIFlowBot.valid (CIFlowBot.setContext CIFlowBot.init eEmptyAuthor)).2 :=
  ⟨by decide, (C5_rejected_stops eEmptyAuthor (by decide)).1⟩

/-- C6: `rollout` returns true exactly when the pull-request author is in
the fixed rollout set, and for every event whose pull-request author is
outside that set the handler makes no label or assignee mutation (no
platform API call at all), even when `valid` is true. -/
theorem C6_rollout_characterization :
    (∀ b : CIFlowBot, CIFlowBot.rollout b = true ↔ b.pr_author ∈ rollout_users) ∧
    (∀ e : WebhookEvent, e.pr_author ∉ rollout_users →
      ∀ a ∈ (CIFlowBot.handler e).2, isPlatformCall a = false) := by
  constructor
  · intro b
    exact List.elem_iff
  · intro e he a ha
    have hro : CIFlowBot.rollout (CIFlowBot.setContext CIFlowBot.init e) = false := by
      unfold CIFlowBot.rollout
      rw [setContext_pr_author]
      exact Bool.eq_false_iff.mpr (fun hc => he (List.elem_iff.1 hc))
    have htr : (CIFlowBot.handler e).2 =
        CIFlowBot.startedLog ::
          (CIFlowBot.valid (CIFlowBot.setContext CIFlowBot.init e)).2 := by
      unfold CIFlowBot.handler
      by_cases hv : (CIFlowBot.valid (CIFlowBot.setContext CIFlowBot.init e)).1 = false <;>
        simp [hv, hro]
    rw [htr] at ha
    rcases List.mem_cons.1 ha with rfl | ha
    · rfl
    · rcases valid_logs (CIFlowBot.setContext CIFlowBot.init e) with hv | hv | hv <;>
        rw [hv] at ha <;> simp_all [isPlatformCall]

/-- Witness for C6: a rollout user passes the gate, and on the concrete
delivery by an author outside the rollout set the started record (a member
of the emitted trace) is not a platform call. -/
theorem C6_witness :
    (CIFlowBot.rollout { CIFlowBot.init with pr_author := "zhouzhuojie" } = true) ∧
    isPlatformCall CIFlowBot.startedLog = false :=
  ⟨(C6_rollout_characterization.1 _).2 (by decide),
   C6_rollout_characterization.2 eGatedOut (by decide) CIFlowBot.startedLog (by decide)⟩

/-- Dispatch on a state with an empty accumulator, no namespaced label on
the pull request, and the default strategy list: the default label is the
whole outcome, added in one batched call and then signalled. -/
theorem dispatch_fresh_empty (b : CIFlowBot)
    (hd : b.dispatch_labels = [])
    (hs : b.dispatch_strategies = [ strategy_add_default_labels])
    (hp : b.pr_labels = []) :
    (CIFlowBot.dispatch b).1.dispatch_labels = ["ciflow/default"] ∧
    (CIFlowBot.dispatch b).2 =
      [Action.addLabels ["ciflow/default"],
        Action.addAssignees ["pytorchbot"],
        Action.removeAssignees ["pytorchbot"],
        Action.logInfo "ciflow dispatch success!"] := by
  have h1 : CIFlowBot.dispatch_strategy_func b strategy_add_default_labels =
      ({ b with dispatch_labels := ["ciflow/default"] }, []) := by
    simp [CIFlowBot.dispatch_strategy_func, hd, hp]
  have h2 : CIFlowBot.runStrategies b [ strategy_add_default_labels] =
      ({ b with dispatch_labels := ["ciflow/default"] }, []) := by
    simp [CIFlowBot.runStrategies, h1]
  have hpre : strStartsWith "ciflow/default" pr_label_prefix = true := by decide
  have h3 : CIFlowBot.setLabels { b with dispatch_labels := ["ciflow/default"] } =
      ({ b with dispatch_labels := ["ciflow/default"] },
        [Action.addLabels ["ciflow/default"]]) := by
    unfold CIFlowBot.setLabels CIFlowBot.labelsToDelete CIFlowBot.labelsToAdd
      CIFlowBot.filteredLabels
    simp [hp, hpre]
  constructor
  · show (CIFlowBot.setLabels
        (CIFlowBot.runStrategies b b.dispatch_strategies).1).1.dispatch_labels = _
    rw [hs]
    simp [h2, h3]
  · show (CIFlowBot.runStrategies b b.dispatch_strategies).2 ++
        (CIFlowBot.setLabels (CIFlowBot.runStrategies b b.dispatch_strategies).1).2 ++
        CIFlowBot.signal_github ++ [Action.logInfo "ciflow dispatch success!"] = _
    rw [hs]
    simp [h2, h3, CIFlowBot.signal_github, bot_assignee]

/-- C3: a pull-request opened event by a rollout-set author whose pull
request has no namespaced label ends with the dispatch labels exactly the
default label and the exact trace: the started log, one add-labels call
with the default label, no remove-label call, one add-assignees call for
the bot login, strictly afterwards one remove-assignees call for the same
login, then the success log. -/
theorem C3_opened_default_flow (e : WebhookEvent)
    (hk : e.kind = event_pull_request)
    (_ha : e.action = "opened")
    (hr : e.pr_author ∈ rollout_users)
    (hl : ∀ l ∈ e.pr_label_names, strStartsWith l pr_label_prefix = false) :
    (CIFlowBot.handler e).1.dispatch_labels = ["ciflow/default"] ∧
    (CIFlowBot.handler e).2 =
      [Action.logInfo "ciflow dispatch started!",
        Action.addLabels ["ciflow/default"],
        Action.addAssignees ["pytorchbot"],
        Action.removeAssignees ["pytorchbot"],
        Action.logInfo "ciflow dispatch success!"] := by
  have hev : (CIFlowBot.setContext CIFlowBot.init e).event = event_pull_request := by
    rw [setContext_event, hk]
  have hvalid : CIFlowBot.valid (CIFlowBot.setContext CIFlowBot.init e) = (true, []) := by
    unfold CIFlowBot.valid
    rw [hev]
    simp [event_pull_request, event_issue_comment]
  have hroll : CIFlowBot.rollout (CIFlowBot.setContext CIFlowBot.init e) = true := by
    unfold CIFlowBot.rollout
    rw [setContext_pr_author]
    exact List.elem_iff.2 hr
  have hd0 : (CIFlowBot.setContext CIFlowBot.init e).dispatch_labels = [] := by
    rw [setContext_dispatch_labels]
    exact rfl
  have hs0 : (CIFlowBot.setContext CIFlowBot.init e).dispatch_strategies =
      [ strategy_add_default_labels] := by
    rw [setContext_dispatch_strategies]
    exact rfl
  have hp0 : (CIFlowBot.setContext CIFlowBot.init e).pr_labels = [] := by
    rw [setContext_pr_labels]
    exact List.filter_eq_nil_iff.mpr (fun l hl2 => by simp [hl l hl2])
  have hdisp := dispatch_fresh_empty _ hd0 hs0 hp0
  constructor
  · unfold CIFlowBot.handler
    simp [hvalid, hroll, hdisp.1]
  · unfold CIFlowBot.handler
    simp [hvalid, hroll, hdisp.2, CIFlowBot.startedLog]

/-- Witness for C3 at the concrete opened delivery by the rollout user. -/
theorem C3_witness :
    (CIFlowBot.handler eOpened).1.dispatch_labels = ["ciflow/default"] ∧
    (CIFlowBot.handler eOpened).2 =
      [Action.logInfo "ciflow dispatch started!",
        Action.addLabels ["ciflow/default"],
        Action.addAssignees ["pytorchbot"],
        Action.removeAssignees ["pytorchbot"],
        Action.logInfo "ciflow dispatch success!"] :=
  C3_opened_default_flow eOpened (by decide) (by decide) (by decide) (by decide)

/-- Running the strategy pipeline on a fresh bot seeds the accumulator from
the pull request's namespaced labels and prepends the default label. -/
theorem strategyPhase_fresh (L : List String) :
    strategyPhase (freshBot L) =
      { freshBot L with dispatch_labels := "ciflow/default" :: L } := by
  unfold strategyPhase freshBot
  simp [CIFlowBot.init, CIFlowBot.runStrategies, CIFlowBot.dispatch_strategy_func]

/-- The dispatch output of one full run on a fresh bot is the default label
followed by the namespaced current labels. -/
theorem pipelineOutput_eq (L : List String) :
    pipelineOutput L =
      "ciflow/default" :: L.filter (fun l => strStartsWith l pr_label_prefix) := by
  unfold pipelineOutput
  rw [strategyPhase_fresh]
  unfold CIFlowBot.setLabels CIFlowBot.filteredLabels
  simp [freshBot, CIFlowBot.init,
    (by decide : strStartsWith "ciflow/default" pr_label_prefix = true)]

/-- On a fresh bot whose current labels are all namespaced and already hold
the default label, the second run's add and delete lists are both empty. -/
theorem second_run_diffs_empty (M : List String)
    (hM : ∀ l ∈ M, strStartsWith l pr_label_prefix = true)
    (hd : "ciflow/default" ∈ M) :
    CIFlowBot.labelsToAdd
        { freshBot M with dispatch_labels := "ciflow/default" :: M } = [] ∧
    CIFlowBot.labelsToDelete
        { freshBot M with dispatch_labels := "ciflow/default" :: M } = [] := by
  have hfil : CIFlowBot.filteredLabels
      { freshBot M with dispatch_labels := "ciflow/default" :: M } =
      "ciflow/default" :: M := by
    unfold CIFlowBot.filteredLabels
    simp [List.filter_eq_self.mpr hM,
      (by decide : strStartsWith "ciflow/default" pr_label_prefix = true)]
  constructor
  · unfold CIFlowBot.labelsToAdd
    rw [hfil]
    refine List.filter_eq_nil_iff.mpr ?_
    intro a hamem
    have ham : a ∈ M := by
      rcases List.mem_cons.1 hamem with rfl | hmm
      · exact hd
      · exact hmm
    simp
    exact ham
  · unfold CIFlowBot.labelsToDelete
    rw [hfil]
    refine List.filter_eq_nil_iff.mpr ?_
    intro a hamem
    have ham : a ∈ M := hamem
    simp
    intro _
    exact ham

/-- C4: a second strategy-plus-reconciliation run on the already-reconciled
state (current pull-request labels equal to the prior run's dispatch
output, which already holds the default label) computes an empty
`labelsToAdd` and an empty `labelsToDelete`. -/
theorem C4_second_run_is_noop (L : List String) :
    CIFlowBot.labelsToAdd (strategyPhase (freshBot (pipelineOutput L))) = [] ∧
    CIFlowBot.labelsToDelete (strategyPhase (freshBot (pipelineOutput L))) = [] := by
  rw [pipelineOutput_eq, strategyPhase_fresh]
  refine second_run_diffs_empty _ ?_ (List.mem_cons_self _ _)
  intro l hl
  rcases List.mem_cons.1 hl with rfl | hl
  · decide
  · simpa using (List.mem_filter.1 hl).2

/-- Witness for C4 at a concrete one-label pull request. -/
theorem C4_witness :
    CIFlowBot.labelsToAdd (strategyPhase (freshBot (pipelineOutput ["ciflow/x"]))) = [] ∧
    CIFlowBot.labelsToDelete (strategyPhase (freshBot (pipelineOutput ["ciflow/x"]))) = [] :=
  C4_second_run_is_noop ["ciflow/x"]

/-- One pipeline step keeps the pull-request labels and preserves the
provenance of every accumulator entry. -/
theorem dispatch_strategy_func_provenance (b : CIFlowBot) (s : String)
    (h : ∀ l ∈ b.dispatch_labels, l ∈ b.pr_labels ∨ l = "ciflow/default") :
    (CIFlowBot.dispatch_strategy_func b s).1.pr_labels = b.pr_labels ∧
    (∀ l ∈ (CIFlowBot.dispatch_strategy_func b s).1.dispatch_labels,
      l ∈ b.pr_labels ∨ l = "ciflow/default") := by
  by_cases hs : s = strategy_add_default_labels
  · by_cases hlen : b.dispatch_labels.length = 0
    · have hres : (CIFlowBot.dispatch_strategy_func b s).1 =
          { b with dispatch_labels := "ciflow/default" :: b.pr_labels } := by
        simp [CIFlowBot.dispatch_strategy_func, hs, hlen]
      rw [hres]
      refine ⟨rfl, ?_⟩
      intro l hl
      have hl1 : l ∈ "ciflow/default" :: b.pr_labels := hl
      rcases List.mem_cons.1 hl1 with rfl | hl2
      · exact Or.inr rfl
      · exact Or.inl hl2
    · have hres : (CIFlowBot.dispatch_strategy_func b s).1 =
          { b with dispatch_labels := "ciflow/default" :: b.dispatch_labels } := by
        simp [CIFlowBot.dispatch_strategy_func, hs, hlen]
      rw [hres]
      refine ⟨rfl, ?_⟩
      intro l hl
      have hl1 : l ∈ "ciflow/default" :: b.dispatch_labels := hl
      rcases List.mem_cons.1 hl1 with rfl | hl2
      · exact Or.inr rfl
      · exact h l hl2
  · have hres : (CIFlowBot.dispatch_strategy_func b s).1 = b := by
      simp [CIFlowBot.dispatch_strategy_func, hs]
    rw [hres]
    exact ⟨rfl, h⟩

/-- The whole pipeline keeps the pull-request labels and preserves the
provenance of every accumulator entry. -/
theorem runStrategies_provenance (ss : List String) (b : CIFlowBot)
    (h : ∀ l ∈ b.dispatch_labels, l ∈ b.pr_labels ∨ l = "ciflow/default") :
    (CIFlowBot.runStrategies b ss).1.pr_labels = b.pr_labels ∧
    (∀ l ∈ (CIFlowBot.runStrategies b ss).1.dispatch_labels,
      l ∈ b.pr_labels ∨ l = "ciflow/default") := by
  induction ss generalizing b with
  | nil => exact ⟨rfl, h⟩
  | cons s rest ih =>
    have hstep := dispatch_strategy_func_provenance b s h
    have hrec := ih (CIFlowBot.dispatch_strategy_func b s).1
      (fun l hl => by rw [hstep.1] at *; exact hstep.2 l hl)
    refine ⟨?_, ?_⟩
    · show (CIFlowBot.runStrategies (CIFlowBot.dispatch_strategy_func b s).1 rest).1.pr_labels
        = b.pr_labels
      rw [hrec.1, hstep.1]
    · intro l hl
      have hl2 : l ∈ (CIFlowBot.runStrategies
          (CIFlowBot.dispatch_strategy_func b s).1 rest).1.dispatch_labels := hl
      have := hrec.2 l hl2
      rwa [hstep.1] at this

/-- C8: after the strategy pipeline, and still after reconciliation, every
label in the dispatch accumulator either already existed in the pull
request's current namespaced label list or is the fixed default label. -/
theorem C8_label_provenance (b : CIFlowBot) (ss : List String)
    (h0 : b.dispatch_labels = []) :
    (∀ l ∈ (CIFlowBot.runStrategies b ss).1.dispatch_labels,
      l ∈ b.pr_labels ∨ l = "ciflow/default") ∧
    (∀ l ∈ (CIFlowBot.setLabels (CIFlowBot.runStrategies b ss).1).1.dispatch_labels,
      l ∈ b.pr_labels ∨ l = "ciflow/default") := by
  have h := runStrategies_provenance ss b (by simp [h0])
  refine ⟨h.2, ?_⟩
  intro l hl
  simp only [CIFlowBot.setLabels, CIFlowBot.filteredLabels] at hl
  exact h.2 l (List.mem_filter.1 hl).1

/-- Witness for C8 on a fresh bot with one namespaced label, instantiated
at the default label the pipeline added. -/
theorem C8_witness :
    "ciflow/default" ∈ (freshBot ["ciflow/x"]).pr_labels ∨
      "ciflow/default" = "ciflow/default" :=
  (C8_label_provenance (freshBot ["ciflow/x"]) [ strategy_add_default_labels]
    rfl).1 "ciflow/default" (by decide)

/-- Witness for C10 at the concrete mention-free comment event. -/
theorem C10_witness :
    (CIFlowBot.setContext CIFlowBot.init eNoMention).command = "" ∧
    (CIFlowBot.setContext CIFlowBot.init eNoMention).command_args = [] ∧
    (eNoMention.kind = event_issue_comment →
      (CIFlowBot.valid (CIFlowBot.setContext CIFlowBot.init eNoMention)).1 = false) :=
  C10_no_mention_is_rejected eNoMention
    (Or.inr ⟨{ author := "alice", body := "no mention here" }, by decide, by decide⟩)

end CIFlow
